import Mathlib

/-!
Shallow embedding of the task-orchestration and event-processing engine of
the WhatsApp analytics backend (`app/services/message_scheduler.py` and
`app/services/redis_subscriber.py`), together with theorems settling the
specification claims about it.

Modelling conventions:
* Python dicts returned by the bridge become the `BridgeResult` structure
  (`success` flag plus optional `error` text).
* Python `datetime` values are modelled as minutes since an arbitrary epoch
  (`Int`); calendar days (`date`) as day numbers (`Nat`); one day = 1440
  minutes, one hour = 60 minutes.
* Python `None`-able columns become `Option`; Python truthiness on strings
  (`x or default`, where both `None` and `""` are falsy) is modelled by
  `pyOrStr`.
* The external environment (bridge responses, session-health checks, group
  lookups, raised exceptions) is passed in explicitly as data, one outcome
  per interaction, so every function is pure and executable.
-/

namespace WhatsAppCore

/-- Result dict of a bridge call: `{"success": bool, "error": str?}`. -/
structure BridgeResult where
  success : Bool
  error : Option String
deriving Repr, DecidableEq

/-- Python `x or default` for an optional string: `None` and `""` are falsy. -/
def pyOrStr (x : Option String) (dflt : String) : String :=
  match x with
  | none => dflt
  | some s => if s = "" then dflt else s

/-- Is `pre` a leading segment of `l`? (hand-rolled `List.isPrefixOf`). -/
def charLeads : List Char → List Char → Bool
  | [], _ => true
  | _ :: _, [] => false
  | a :: as, b :: bs => a == b && charLeads as bs

/-- Does `needle` occur as a contiguous segment of `hay`? -/
def charSeg (needle : List Char) : List Char → Bool
  | [] => charLeads needle []
  | c :: rest => charLeads needle (c :: rest) || charSeg needle rest

/-- Python `needle in hay` on strings. -/
def strOccurs (needle hay : String) : Bool :=
  charSeg needle.data hay.data

/-- `'timed out' in error.lower() or 'timeout' in error.lower()`
(`MessageScheduler._send_with_retry`, line 65); `str.lower()` modelled
character-wise (the source's error texts are ASCII). -/
def isTimeoutText (error : String) : Bool :=
  charSeg "timed out".data (error.data.map Char.toLower)
    || charSeg "timeout".data (error.data.map Char.toLower)

/-- One attempt of the wrapped `send_func`: either a returned result dict or
a raised exception carrying its string form. -/
inductive SendOutcome where
  | res (r : BridgeResult)
  | exc (msg : String)
deriving Repr, DecidableEq

/-- `delays = [5, 10, 20]  # seconds between retries`. -/
def retryDelays : List Nat := [5, 10, 20]

/-- Observable outcome of `_send_with_retry`: the returned result dict, the
sequence of backoff delays slept, and how many attempts ran. -/
structure RetryTrace where
  result : BridgeResult
  delays : List Nat
  attemptsUsed : Nat
deriving Repr, DecidableEq

/-- The `for attempt in range(max_retries)` loop of
`MessageScheduler._send_with_retry` (lines 54-84). `idxs` is the list of
remaining attempt indices; `lastError` tracks Python's `last_error`;
`slept` accumulates backoff delays. The post-loop
`return {"success": False, "error": last_error or "Max retries exceeded"}`
is the `[]` case (reached in the source only via `break`). -/
def retryLoop (f : Nat → SendOutcome) (maxRetries : Nat) :
    List Nat → Option String → List Nat → RetryTrace
  | [], lastError, slept =>
      ⟨⟨false, some (pyOrStr lastError "Max retries exceeded")⟩, slept, maxRetries⟩
  | attempt :: rest, _, slept =>
      match f attempt with
      | .res r =>
          if r.success then ⟨r, slept, attempt + 1⟩
          else
            let error := r.error.getD ""
            if isTimeoutText error && decide (attempt < maxRetries - 1) then
              retryLoop f maxRetries rest (some error)
                (slept ++ [retryDelays.getD attempt 0])
            else ⟨r, slept, attempt + 1⟩
      | .exc msg =>
          if attempt < maxRetries - 1 then
            retryLoop f maxRetries rest (some msg)
              (slept ++ [retryDelays.getD attempt 0])
          else ⟨⟨false, some (pyOrStr (some msg) "Max retries exceeded")⟩,
                slept, attempt + 1⟩

/-- `MessageScheduler._send_with_retry(send_func)` with its fixed
`max_retries = 3`, iterating attempts `range(3) = [0, 1, 2]`. -/
def sendWithRetry (f : Nat → SendOutcome) : RetryTrace :=
  retryLoop f 3 [0, 1, 2] none []

/-- Per-group environment outcome inside the executor loop of
`_process_broadcast` / `_process_poll` / `_process_group_settings`:
the session-ready check failed (`notReady`), the loop body raised
(`stepExc`), the `MonitoredGroup` lookup returned no row (`noGroup`), or
`_send_with_retry` returned a result dict for the named group (`sendDone`). -/
inductive GroupStep where
  | notReady
  | stepExc (groupId : Nat) (msg : String)
  | noGroup (groupId : Nat)
  | sendDone (groupName : String) (result : BridgeResult)
deriving Repr, DecidableEq

/-- The shared per-group iteration of the three executors
(`_process_broadcast` lines 165-237, `_process_poll` lines 303-364,
`_process_group_settings` lines 423-493): returns
`(groups_sent, groups_failed, errors)`. A `notReady` step appends the
recovery-failure error, fails all remaining groups
(`groups_failed += len(group_ids) - i`) and breaks out of the loop. -/
def runGroupLoop : List GroupStep → Nat × Nat × List String
  | [] => (0, 0, [])
  | .notReady :: rest =>
      (0, rest.length + 1, ["WhatsApp client not ready - recovery failed"])
  | .stepExc gid msg :: rest =>
      let t := runGroupLoop rest
      (t.1, t.2.1 + 1, (s!"Group {gid}: {msg}") :: t.2.2)
  | .noGroup gid :: rest =>
      let t := runGroupLoop rest
      (t.1, t.2.1 + 1, (s!"Group {gid} not found") :: t.2.2)
  | .sendDone name r :: rest =>
      let t := runGroupLoop rest
      if r.success then (t.1 + 1, t.2.1, t.2.2)
      else (t.1, t.2.1 + 1,
            (name ++ ": " ++ r.error.getD "Unknown error") :: t.2.2)

/-- Final accounting of one executor run. -/
structure TaskOutcome where
  groupsSent : Nat
  groupsFailed : Nat
  errors : List String
  status : String
deriving Repr, DecidableEq

/-- Terminal-status computation shared by the three executors
(`message_scheduler.py` lines 240-252 / 366-379 / 495-508):
`sent` if zero failures, `failed` if zero successes, else
`partially_sent`. -/
def finishOutcome (p : Nat × Nat × List String) : TaskOutcome :=
  { groupsSent := p.1
    groupsFailed := p.2.1
    errors := p.2.2
    status :=
      if p.2.1 = 0 then "sent"
      else if p.1 = 0 then "failed"
      else "partially_sent" }

/-- A row of `scheduled_messages` (`app/models/scheduled_message.py`).
Instants are minutes since an arbitrary epoch; a fresh row's `id` is
store-assigned and modelled as `0` until persisted. -/
structure Task where
  id : Nat
  userId : Nat
  taskType : String
  isRecurring : Bool
  recurringTime : Option String
  parentScheduleId : Option Nat
  content : Option String
  mediaPath : Option String
  pollOptions : List String
  pollAllowMultiple : Bool
  groupIds : List Nat
  groupNames : List String
  mentionType : String
  mentionIds : List String
  scheduledAt : Int
  status : String
  sentAt : Option Int
  errorMessage : Option String
  groupsSent : Nat
  groupsFailed : Nat
deriving Repr, DecidableEq

/-- Python `str.split(sep)` for a single-character separator. -/
def splitOnChar (sep : Char) : List Char → List (List Char)
  | [] => [[]]
  | c :: rest =>
      match splitOnChar sep rest with
      | [] => [[]]
      | h :: t => if c == sep then [] :: h :: t else (c :: h) :: t

/-- Python `int(...)` restricted to plain decimal digit strings; `none`
models the `ValueError` raised on anything else. -/
def charsToNat? (l : List Char) : Option Nat :=
  match l with
  | [] => none
  | _ => l.foldl
      (fun acc c =>
        match acc with
        | some n => if c.isDigit then some (n * 10 + (c.toNat - 48)) else none
        | none => none)
      (some 0)

/-- `hour, minute = map(int, time_str.split(':'))` — parses `"HH:MM"`;
`none` models the `ValueError` Python raises on malformed input. -/
def parseHHMM (s : String) : Option (Nat × Nat) :=
  match splitOnChar ':' s.data with
  | [h, m] =>
      match charsToNat? h, charsToNat? m with
      | some hh, some mm => some (hh, mm)
      | _, _ => none
  | _ => none

/-- `MessageScheduler._calculate_next_run(time_str)` (lines 560-573):
tomorrow (relative to the current UTC day `todayUtc`) at the given
wall-clock time, minus the fixed `timezone_offset_hours = 2`.
Result in minutes since epoch. -/
def calculateNextRun (timeStr : String) (todayUtc : Nat) : Option Int :=
  (parseHHMM timeStr).map
    (fun p => ((todayUtc : Int) + 1) * 1440 + (p.1 : Int) * 60 + (p.2 : Int) - 2 * 60)

/-- Applies the shared post-loop bookkeeping (lines 240-252 etc.) to a task:
counters, `sent_at`, terminal status, and the `"; ".join(errors)` error
message (left untouched when no errors accumulated). -/
def applyOutcome (task : Task) (o : TaskOutcome) (now : Int) : Task :=
  { task with
    groupsSent := o.groupsSent
    groupsFailed := o.groupsFailed
    sentAt := some now
    status := o.status
    errorMessage :=
      if o.errors.isEmpty then task.errorMessage
      else some (String.intercalate "; " o.errors) }

/-- `MessageScheduler._process_broadcast` (lines 150-287), given one
environment outcome per target group. A broadcast run mutates only the task
itself; no recurrence block exists in this executor, so the list of newly
inserted tasks is always empty. -/
def processBroadcastTask (task : Task) (steps : List GroupStep) (now : Int) :
    Task × List Task :=
  (applyOutcome task (finishOutcome (runGroupLoop steps)) now, [])

/-- `MessageScheduler._process_poll` (lines 289-407): identical loop and
bookkeeping to the broadcast executor, and likewise no recurrence block. -/
def processPollTask (task : Task) (steps : List GroupStep) (now : Int) :
    Task × List Task :=
  (applyOutcome task (finishOutcome (runGroupLoop steps)) now, [])

/-- Python truthiness of `task.recurring_time` (a nullable string column). -/
def recurringTimeTruthy (task : Task) : Bool :=
  match task.recurringTime with
  | none => false
  | some s => s != ""

/-- The fresh `pending` successor inserted by the recurrence block of
`_process_group_settings` (lines 511-527). `parent_schedule_id` is
`task.parent_schedule_id or task.id` (Python truthiness: `0` falsy). -/
def nextOccurrence (task : Task) (nextRun : Int) : Task :=
  { id := 0
    userId := task.userId
    taskType := task.taskType
    isRecurring := true
    recurringTime := task.recurringTime
    parentScheduleId := some
      (match task.parentScheduleId with
       | some p => if p = 0 then task.id else p
       | none => task.id)
    content := task.content
    mediaPath := none
    pollOptions := []
    pollAllowMultiple := false
    groupIds := task.groupIds
    groupNames := task.groupNames
    mentionType := task.mentionType
    mentionIds := task.mentionIds
    scheduledAt := nextRun
    status := "pending"
    sentAt := none
    errorMessage := none
    groupsSent := 0
    groupsFailed := 0 }

/-- `MessageScheduler._process_group_settings` (lines 409-558): the shared
loop and bookkeeping, then — only in this executor — the recurrence block:
if `task.is_recurring and task.recurring_time`, one fresh `pending`
successor is inserted for tomorrow's occurrence. A malformed
`recurring_time` raises inside the `try` and lands in the fatal handler
(lines 545-549: status `failed`, `error_message` the exception text, no
insert). -/
def processGroupSettingsTask (task : Task) (steps : List GroupStep)
    (now : Int) (todayUtc : Nat) : Task × List Task :=
  let done := applyOutcome task (finishOutcome (runGroupLoop steps)) now
  if task.isRecurring && recurringTimeTruthy task then
    match calculateNextRun (task.recurringTime.getD "") todayUtc with
    | some nextRun => (done, [nextOccurrence task nextRun])
    | none =>
        ({ done with status := "failed"
                     errorMessage := some "invalid recurring_time" }, [])
  else (done, [])

/-- The due filter of `MessageScheduler.process_due_tasks` (lines 122-125):
`status == 'pending' and scheduled_at <= now`. -/
def isDue (now : Int) (t : Task) : Bool :=
  t.status == "pending" && decide (t.scheduledAt ≤ now)

/-- The set of tasks one dispatcher poll selects for execution
(`process_due_tasks`, lines 116-144). -/
def processDueTasksSelect (tasks : List Task) (now : Int) : List Task :=
  tasks.filter (isDue now)

/-- A row of `monitored_groups` (`app/models/monitored_group.py`),
restricted to the columns the event pipeline reads or writes. Nullable
text columns are `""` when unset (Python treats `None` and `""` alike in
every use below). -/
structure MonitoredGroup where
  id : Nat
  userId : Nat
  whatsappGroupId : String
  groupName : String
  isActive : Bool
  welcomeEnabled : Bool
  welcomeThreshold : Nat
  welcomeJoinCount : Nat
  welcomePendingJoiners : List String
  welcomeText : String
  welcomeExtraMentions : List String
  welcomePart2Enabled : Bool
  welcomePart2Text : String
  welcomePart2Image : String
deriving Repr, DecidableEq

/-- A row of `messages` (`app/models/message.py`), keyed by the upstream
WhatsApp message id. -/
structure MessageRec where
  id : String
  userId : Nat
  groupId : Nat
  whatsappGroupId : String
  groupName : String
  senderId : Option String
  senderName : String
  senderPhone : String
  content : String
  messageType : String
  timestamp : Int
deriving Repr, DecidableEq

/-- A row of `events` (`app/models/event.py`): join/leave/certificate log
entries; `eventDate` is a calendar-day number used for certificate dedup. -/
structure EventRec where
  userId : Nat
  groupId : Nat
  whatsappGroupId : String
  groupName : String
  memberId : String
  memberName : String
  memberPhone : Option String
  eventType : String
  eventDate : Nat
  timestamp : Int
deriving Repr, DecidableEq

/-- The persistent store as seen by the event pipeline. -/
structure Store where
  groups : List MonitoredGroup
  messages : List MessageRec
  events : List EventRec
deriving Repr, DecidableEq

/-- Observable side effects of one event's processing: WebSocket pushes to
the owning user, bridge sends, and entry into the mention workflow. -/
inductive Effect where
  | notifyUser (kind : String)
  | mentionCheck
  | bridgeWelcome (waGroupId : String) (content : String)
      (joinerPhones : List String) (extraPhones : List String)
  | bridgeMedia (waGroupId : String) (filePath : String) (caption : String)
  | bridgeText (waGroupId : String) (content : String)
deriving Repr, DecidableEq

/-- The monitored-group lookup every handler performs first
(`redis_subscriber.py` lines 164-169 / 326-330 / 502-506):
first row with this owner, this upstream group id, and `is_active`. -/
def findMonitoredGroup (db : Store) (userId : Nat) (gidWa : String) :
    Option MonitoredGroup :=
  db.groups.find? (fun g =>
    g.userId == userId && g.whatsappGroupId == gidWa && g.isActive)

/-- Payload of a `message` event (`data["message"]`); `Option` fields are
`.get` keys with defaults applied at use sites. -/
structure MsgEventData where
  id : String
  groupId : String
  groupName : Option String
  senderId : Option String
  senderName : Option String
  senderPhone : Option String
  content : Option String
  messageType : Option String
  timestamp : Option Int
deriving Repr, DecidableEq

/-- Payload of a `member_join` / `member_leave` / `certificate` event
(`data["event"]`). -/
structure MemberEventData where
  groupId : String
  groupName : Option String
  memberId : Option String
  memberName : Option String
  memberPhone : Option String
  timestamp : Option Int
deriving Repr, DecidableEq

/-- `RedisSubscriber.handle_new_message` (lines 157-215): drop if the group
is not actively monitored; drop if the message id is already stored;
otherwise persist the row, forward it, and run the mention workflow. -/
def handleNewMessage (db : Store) (userId : Nat) (msg : MsgEventData)
    (nowTs : Int) : Store × List Effect :=
  match findMonitoredGroup db userId msg.groupId with
  | none => (db, [])
  | some group =>
      match db.messages.find? (fun m => m.id == msg.id) with
      | some _ => (db, [])
      | none =>
          let rec_ : MessageRec :=
            { id := msg.id
              userId := userId
              groupId := group.id
              whatsappGroupId := msg.groupId
              groupName := msg.groupName.getD group.groupName
              senderId := msg.senderId
              senderName := msg.senderName.getD "Unknown"
              senderPhone := msg.senderPhone.getD ""
              content := msg.content.getD ""
              messageType := msg.messageType.getD "text"
              timestamp := msg.timestamp.getD nowTs }
          ({ db with messages := db.messages ++ [rec_] },
           [.notifyUser "new_message", .mentionCheck])

/-- `group.welcome_threshold or 1` (line 395): a zero/unset threshold is
treated as 1. -/
def thresholdEff (g : MonitoredGroup) : Nat :=
  if g.welcomeThreshold = 0 then 1 else g.welcomeThreshold

/-- The state mutation of `RedisSubscriber.process_welcome_message`
(lines 378-418) for one qualifying join: append the joiner to the pending
list if not already there, increment the counter, and — when the counter
reaches the threshold — capture the pending list, reset both fields to
`(0, [])` (persisted before the send is attempted) and fire the captured
list. Returns the updated group row and the fired capture, if any. -/
def welcomeStep (g : MonitoredGroup) (memberPhone : String) :
    MonitoredGroup × Option (List String) :=
  let pending :=
    if memberPhone ∈ g.welcomePendingJoiners then g.welcomePendingJoiners
    else g.welcomePendingJoiners ++ [memberPhone]
  let cnt := g.welcomeJoinCount + 1
  if thresholdEff g ≤ cnt then
    ({ g with welcomeJoinCount := 0, welcomePendingJoiners := [] }, some pending)
  else
    ({ g with welcomeJoinCount := cnt, welcomePendingJoiners := pending }, none)

/-- Folds `welcomeStep` over a sequence of joins delivered one at a time
(each join re-reads the row the previous one wrote, as the source's
`db.refresh` does), collecting every fired capture in order. The empty-phone
guard of `process_welcome_message` (lines 374-376) skips the join. -/
def processJoins (g : MonitoredGroup) : List String →
    MonitoredGroup × List (List String)
  | [] => (g, [])
  | p :: rest =>
      if p = "" then processJoins g rest
      else
        let step := welcomeStep g p
        let tail := processJoins step.1 rest
        (tail.1, (match step.2 with | some l => [l] | none => []) ++ tail.2)

/-- The joiner-mention cleanup of `RedisSubscriber.send_welcome_message`
(lines 426-437): drop empty/duplicate joiner phones preserving order, then
remove any phone that is also in the always-mention list. -/
def uniqueJoinerPhones (joinerPhones extraMentions : List String) :
    List String :=
  let uniq := joinerPhones.foldl
    (fun acc p => if p ≠ "" ∧ p ∉ acc then acc ++ [p] else acc) []
  extraMentions.foldl (fun acc e => acc.erase e) uniq

/-- Effects of `RedisSubscriber.send_welcome_message` (lines 420-493):
Part 1 welcome send with coalesced mentions, optional Part 2
(image-with-caption, or text-only, or nothing), and the `welcome_sent`
notification. -/
def sendWelcomeEffects (g : MonitoredGroup) (joinerPhones : List String) :
    List Effect :=
  [Effect.bridgeWelcome g.whatsappGroupId
      (if g.welcomeText = "" then "Welcome!" else g.welcomeText)
      (uniqueJoinerPhones joinerPhones g.welcomeExtraMentions)
      g.welcomeExtraMentions]
  ++ (if g.welcomePart2Enabled then
        if g.welcomePart2Image ≠ "" then
          [Effect.bridgeMedia g.whatsappGroupId g.welcomePart2Image
            g.welcomePart2Text]
        else if g.welcomePart2Text ≠ "" then
          [Effect.bridgeText g.whatsappGroupId g.welcomePart2Text]
        else []
      else [])
  ++ [Effect.notifyUser "welcome_sent"]

/-- Writes an updated group row back to the store (the `db.commit()` after
mutating the row in place). -/
def updateGroup (db : Store) (g : MonitoredGroup) : Store :=
  { db with groups := db.groups.map (fun x => if x.id == g.id then g else x) }

/-- `RedisSubscriber.process_welcome_message` (lines 370-418) at store
level: skip empty joiner phones, refresh the group row from the store,
apply `welcomeStep`, persist, and on a fired capture emit the welcome-send
effects. -/
def processWelcomeMessage (db : Store) (group : MonitoredGroup)
    (memberPhone : String) : Store × List Effect :=
  if memberPhone = "" then (db, [])
  else
    let g := (db.groups.find? (fun x => x.id == group.id)).getD group
    let step := welcomeStep g memberPhone
    match step.2 with
    | none => (updateGroup db step.1, [])
    | some captured => (updateGroup db step.1, sendWelcomeEffects step.1 captured)

/-- `RedisSubscriber.handle_member_event` (lines 320-368): drop if the
group is not actively monitored; otherwise persist a JOIN/LEAVE event row,
forward it, and for JOINs on welcome-enabled groups run the welcome
workflow. `today` is `date.today()`, `nowTs` the timestamp fallback. -/
def handleMemberEvent (db : Store) (userId : Nat) (ev : MemberEventData)
    (eventType : String) (today : Nat) (nowTs : Int) : Store × List Effect :=
  match findMonitoredGroup db userId ev.groupId with
  | none => (db, [])
  | some group =>
      let e : EventRec :=
        { userId := userId
          groupId := group.id
          whatsappGroupId := ev.groupId
          groupName := ev.groupName.getD group.groupName
          memberId := ev.memberId.getD ""
          memberName := ev.memberName.getD "Unknown"
          memberPhone := ev.memberPhone
          eventType := eventType
          eventDate := today
          timestamp := ev.timestamp.getD nowTs }
      let db1 : Store := { db with events := db.events ++ [e] }
      let effs : List Effect := [.notifyUser ("member_" ++ eventType.toLower)]
      if eventType == "JOIN" && group.welcomeEnabled then
        let w := processWelcomeMessage db1 group (ev.memberPhone.getD "")
        (w.1, effs ++ w.2)
      else (db1, effs)

/-- The dedup predicate of `handle_certificate_event` (lines 513-519):
same owner, same monitored group, same member phone, type `CERTIFICATE`,
same calendar day. -/
def certKeyMatch (e : EventRec) (userId groupId : Nat) (phone : String)
    (day : Nat) : Bool :=
  e.userId == userId && e.groupId == groupId && e.memberPhone == some phone
    && e.eventType == "CERTIFICATE" && e.eventDate == day

/-- Number of stored certificate rows for one (tenant, group, member, day)
key in an event table. -/
def certCount (events : List EventRec) (userId groupId : Nat) (phone : String)
    (day : Nat) : Nat :=
  (events.filter (fun e => certKeyMatch e userId groupId phone day)).length

/-- The certificate Event row built at lines 526-537 of
`redis_subscriber.py`. -/
def mkCertEvent (userId : Nat) (group : MonitoredGroup) (ev : MemberEventData)
    (today : Nat) (nowTs : Int) : EventRec :=
  { userId := userId
    groupId := group.id
    whatsappGroupId := ev.groupId
    groupName := ev.groupName.getD group.groupName
    memberId := ev.memberId.getD ""
    memberName := ev.memberName.getD "Unknown"
    memberPhone := some (ev.memberPhone.getD "")
    eventType := "CERTIFICATE"
    eventDate := today
    timestamp := ev.timestamp.getD nowTs }

/-- `RedisSubscriber.handle_certificate_event` (lines 495-556): drop if the
group is not actively monitored; drop silently if a certificate row for
this (tenant, group, member) already exists today; otherwise persist the
row and forward it. -/
def handleCertificateEvent (db : Store) (userId : Nat) (ev : MemberEventData)
    (today : Nat) (nowTs : Int) : Store × List Effect :=
  match findMonitoredGroup db userId ev.groupId with
  | none => (db, [])
  | some group =>
      let memberPhone := ev.memberPhone.getD ""
      match db.events.find? (fun e =>
          certKeyMatch e userId group.id memberPhone today) with
      | some _ => (db, [])
      | none =>
          ({ db with events := db.events ++ [mkCertEvent userId group ev today nowTs] },
           [.notifyUser "certificate"])

/-! ## Theorems -/

/-- Every iteration of the executor loop accounts each target group exactly
once: a `notReady` abort fails the current and all remaining groups, every
other step records exactly one success or one failure. -/
theorem runGroupLoop_sum (steps : List GroupStep) :
    (runGroupLoop steps).1 + (runGroupLoop steps).2.1 = steps.length := by
  induction steps with
  | nil => simp [runGroupLoop]
  | cons st rest ih =>
    cases st with
    | notReady => simp [runGroupLoop]
    | stepExc gid msg => simp [runGroupLoop]; omega
    | noGroup gid => simp [runGroupLoop]; omega
    | sendDone name r =>
      by_cases hr : r.success <;> simp [runGroupLoop, hr] <;> omega

/-- The terminal-status computation always lands in one of the three
terminal states and preserves the counters. -/
theorem finishOutcome_spec (steps : List GroupStep) :
    (finishOutcome (runGroupLoop steps)).groupsSent
        + (finishOutcome (runGroupLoop steps)).groupsFailed = steps.length ∧
    (finishOutcome (runGroupLoop steps)).status
        ∈ (["sent", "partially_sent", "failed"] : List String) := by
  refine ⟨by simpa [finishOutcome] using runGroupLoop_sum steps, ?_⟩
  unfold finishOutcome
  by_cases h1 : (runGroupLoop steps).2.1 = 0 <;>
    by_cases h2 : (runGroupLoop steps).1 = 0 <;> simp [h1, h2]

/-- C1: for every task with N target groups, whenever a broadcast, poll, or
group-setting execution finishes with terminal status `sent`,
`partially_sent` or `failed`, the stored counters satisfy
`groups_sent + groups_failed = N`; the equality also covers the early
session-recovery abort, whose remaining unattempted groups are all counted
as failed (a `notReady` step inside `steps`). `steps` supplies one
environment outcome per target group. -/
theorem task_counters_total (task : Task) (steps : List GroupStep)
    (now : Int) (todayUtc : Nat)
    (hlen : steps.length = task.groupIds.length) :
    ((processBroadcastTask task steps now).1.groupsSent
        + (processBroadcastTask task steps now).1.groupsFailed
        = task.groupIds.length ∧
      (processBroadcastTask task steps now).1.status
        ∈ (["sent", "partially_sent", "failed"] : List String)) ∧
    ((processPollTask task steps now).1.groupsSent
        + (processPollTask task steps now).1.groupsFailed
        = task.groupIds.length ∧
      (processPollTask task steps now).1.status
        ∈ (["sent", "partially_sent", "failed"] : List String)) ∧
    ((processGroupSettingsTask task steps now todayUtc).1.groupsSent
        + (processGroupSettingsTask task steps now todayUtc).1.groupsFailed
        = task.groupIds.length ∧
      (processGroupSettingsTask task steps now todayUtc).1.status
        ∈ (["sent", "partially_sent", "failed"] : List String)) := by
  obtain ⟨hsum, hstat⟩ := finishOutcome_spec steps
  refine ⟨⟨by simpa [processBroadcastTask, applyOutcome, hlen] using hsum,
           by simpa [processBroadcastTask, applyOutcome] using hstat⟩,
          ⟨by simpa [processPollTask, applyOutcome, hlen] using hsum,
           by simpa [processPollTask, applyOutcome] using hstat⟩, ?_, ?_⟩
  · unfold processGroupSettingsTask
    split
    · split
      · simpa [applyOutcome, hlen] using hsum
      · simpa [applyOutcome, hlen] using hsum
    · simpa [applyOutcome, hlen] using hsum
  · unfold processGroupSettingsTask
    split
    · split
      · simpa [applyOutcome] using hstat
      · simp [applyOutcome]
    · simpa [applyOutcome] using hstat

/-- A concrete two-group broadcast task used by witnesses. -/
def sampleTask : Task :=
  { id := 1
    userId := 7
    taskType := "broadcast"
    isRecurring := false
    recurringTime := none
    parentScheduleId := none
    content := some "hello"
    mediaPath := none
    pollOptions := []
    pollAllowMultiple := false
    groupIds := [10, 11]
    groupNames := ["A", "B"]
    mentionType := "none"
    mentionIds := []
    scheduledAt := 0
    status := "pending"
    sentAt := none
    errorMessage := none
    groupsSent := 0
    groupsFailed := 0 }

/-- Witness for C1 at a concrete two-group task where group A succeeds and
group B's row is missing. -/
theorem task_counters_total_witness :
    ([GroupStep.sendDone "A" ⟨true, none⟩, GroupStep.noGroup 11].length
       = sampleTask.groupIds.length) ∧
    (processBroadcastTask sampleTask
        [GroupStep.sendDone "A" ⟨true, none⟩, GroupStep.noGroup 11] 0).1.groupsSent
      + (processBroadcastTask sampleTask
        [GroupStep.sendDone "A" ⟨true, none⟩, GroupStep.noGroup 11] 0).1.groupsFailed
      = sampleTask.groupIds.length :=
  ⟨by decide,
   (task_counters_total sampleTask
      [GroupStep.sendDone "A" ⟨true, none⟩, GroupStep.noGroup 11] 0 0
      (by decide)).1.1⟩

/-- When the recovery-failure abort hits after a clean segment `pre`, the
earlier accounting is kept and the abort step fails one group per remaining
iteration plus the current one. -/
theorem runGroupLoop_abort (pre post : List GroupStep)
    (hpre : GroupStep.notReady ∉ pre) :
    (runGroupLoop (pre ++ GroupStep.notReady :: post)).1
        = (runGroupLoop pre).1 ∧
    (runGroupLoop (pre ++ GroupStep.notReady :: post)).2.1
        = (runGroupLoop pre).2.1 + post.length + 1 ∧
    (runGroupLoop (pre ++ GroupStep.notReady :: post)).2.2
        = (runGroupLoop pre).2.2
            ++ ["WhatsApp client not ready - recovery failed"] := by
  induction pre with
  | nil => simp [runGroupLoop]
  | cons st rest ih =>
    have hst : st ≠ GroupStep.notReady := by
      intro h; exact hpre (by simp [h])
    have hrest : GroupStep.notReady ∉ rest := fun h => hpre (List.mem_cons_of_mem _ h)
    obtain ⟨ih1, ih2, ih3⟩ := ih hrest
    cases st with
    | notReady => exact absurd rfl hst
    | stepExc gid msg =>
      refine ⟨by simp [runGroupLoop, ih1], ?_, by simp [runGroupLoop, ih3]⟩
      simp [runGroupLoop, ih2]; omega
    | noGroup gid =>
      refine ⟨by simp [runGroupLoop, ih1], ?_, by simp [runGroupLoop, ih3]⟩
      simp [runGroupLoop, ih2]; omega
    | sendDone name r =>
      by_cases hr : r.success
      · refine ⟨by simp [runGroupLoop, hr, ih1], ?_,
          by simp [runGroupLoop, hr, ih3]⟩
        simp [runGroupLoop, hr, ih2]
      · refine ⟨by simp [runGroupLoop, hr, ih1], ?_,
          by simp [runGroupLoop, hr, ih3]⟩
        simp [runGroupLoop, hr, ih2]; omega

/-- C8: if the pre-send session-ready check and its single recovery attempt
fail at some group (the `notReady` step), that group and all later groups
are counted as failed, iteration stops (no step of `post` contributes a
success), successes recorded for the clean earlier segment `pre` are kept,
and — when at least one earlier group succeeded — the terminal status is
`partially_sent`. -/
theorem recovery_abort_accounting (task : Task) (pre post : List GroupStep)
    (now : Int) (hpre : GroupStep.notReady ∉ pre) :
    (processBroadcastTask task (pre ++ GroupStep.notReady :: post) now).1.groupsSent
        = (runGroupLoop pre).1 ∧
    (processBroadcastTask task (pre ++ GroupStep.notReady :: post) now).1.groupsFailed
        = (runGroupLoop pre).2.1 + post.length + 1 ∧
    (0 < (runGroupLoop pre).1 →
      (processBroadcastTask task (pre ++ GroupStep.notReady :: post) now).1.status
        = "partially_sent") := by
  obtain ⟨h1, h2, _⟩ := runGroupLoop_abort pre post hpre
  refine ⟨by simp [processBroadcastTask, applyOutcome, finishOutcome, h1],
          by simp [processBroadcastTask, applyOutcome, finishOutcome, h2],
          fun hpos => ?_⟩
  have hfail : (runGroupLoop (pre ++ GroupStep.notReady :: post)).2.1 ≠ 0 := by omega
  have hsent : (runGroupLoop (pre ++ GroupStep.notReady :: post)).1 ≠ 0 := by omega
  simp [processBroadcastTask, applyOutcome, finishOutcome, hfail, hsent]

/-- Witness for C8: the spec's 3-group scenario — group 1 succeeds, the
session-ready check fails (recovery included) at group 2 — ends with
`groups_sent = 1`, `groups_failed = 2`. -/
theorem recovery_abort_accounting_witness :
    (GroupStep.notReady ∉ [GroupStep.sendDone "Group 1" ⟨true, none⟩]) ∧
    (processBroadcastTask sampleTask
        ([GroupStep.sendDone "Group 1" ⟨true, none⟩]
          ++ GroupStep.notReady :: [GroupStep.sendDone "Group 3" ⟨true, none⟩])
        0).1.groupsSent
      = (runGroupLoop [GroupStep.sendDone "Group 1" ⟨true, none⟩]).1 ∧
    (processBroadcastTask sampleTask
        ([GroupStep.sendDone "Group 1" ⟨true, none⟩]
          ++ GroupStep.notReady :: [GroupStep.sendDone "Group 3" ⟨true, none⟩])
        0).1.groupsFailed
      = (runGroupLoop [GroupStep.sendDone "Group 1" ⟨true, none⟩]).2.1
          + [GroupStep.sendDone "Group 3" (⟨true, none⟩ : BridgeResult)].length + 1 :=
  ⟨by decide,
   (recovery_abort_accounting sampleTask
      [GroupStep.sendDone "Group 1" ⟨true, none⟩]
      [GroupStep.sendDone "Group 3" ⟨true, none⟩] 0 (by decide)).1,
   (recovery_abort_accounting sampleTask
      [GroupStep.sendDone "Group 1" ⟨true, none⟩]
      [GroupStep.sendDone "Group 3" ⟨true, none⟩] 0 (by decide)).2.1⟩

/-- A probe send function whose first attempt raises an exception and whose
later attempts return success. -/
def retryExcProbe : Nat → SendOutcome :=
  fun i => if i = 0 then SendOutcome.exc "boom" else SendOutcome.res ⟨true, none⟩

/-- C7 counterexample: the claim says any non-timeout failure, *including a
raised exception*, is accepted immediately as the result without retry.
On a send function whose first attempt raises the non-timeout exception
`"boom"`, `_send_with_retry` instead sleeps the 5-second backoff, retries,
and returns the second attempt's success — two attempts, not one. -/
theorem send_with_retry_retries_exceptions :
    sendWithRetry retryExcProbe
      = ⟨⟨true, none⟩, [5], 2⟩ := by decide

/-- C7 (amended): the retry wrapper retries timeout-indicated *error
results* and *all raised exceptions*, sleeping the bounded backoff delays
(5s then 10s) between its at most 3 attempts; a non-timeout error result
is accepted immediately without retry; after exhaustion the last attempt's
result (for results) or the last exception text (for exceptions) is
returned as the permanent failure. -/
theorem send_with_retry_policy (f : Nat → SendOutcome)
    (r0 r1 r2 : BridgeResult) (m0 m1 m2 : String) :
    (f 0 = .res r0 → r0.success = false →
      isTimeoutText (r0.error.getD "") = false →
      sendWithRetry f = ⟨r0, [], 1⟩) ∧
    (f 0 = .res r0 → r0.success = false →
      isTimeoutText (r0.error.getD "") = true →
      f 1 = .res r1 → r1.success = false →
      isTimeoutText (r1.error.getD "") = true →
      f 2 = .res r2 →
      sendWithRetry f = ⟨r2, [5, 10], 3⟩) ∧
    (f 0 = .exc m0 → f 1 = .exc m1 → f 2 = .exc m2 → m2 ≠ "" →
      sendWithRetry f = ⟨⟨false, some m2⟩, [5, 10], 3⟩) := by
  refine ⟨fun h0 hs ht => ?_, fun h0 hs ht h1 hs1 ht1 h2 => ?_,
    fun h0 h1 h2 hm => ?_⟩
  · simp [sendWithRetry, retryLoop, h0, hs, ht]
  · by_cases hr2 : r2.success <;>
      simp [sendWithRetry, retryLoop, h0, hs, ht, h1, hs1, ht1, h2, hr2,
        retryDelays]
  · simp [sendWithRetry, retryLoop, h0, h1, h2, retryDelays, pyOrStr, hm]

/-- Witness for C7 at a concrete non-timeout error result: it is returned
after exactly one attempt with no backoff sleeps. -/
theorem send_with_retry_policy_witness :
    isTimeoutText ((some "connection refused").getD "") = false ∧
    sendWithRetry (fun _ => SendOutcome.res ⟨false, some "connection refused"⟩)
      = ⟨⟨false, some "connection refused"⟩, [], 1⟩ :=
  ⟨by decide,
   (send_with_retry_policy
      (fun _ => SendOutcome.res ⟨false, some "connection refused"⟩)
      ⟨false, some "connection refused"⟩ ⟨false, none⟩ ⟨false, none⟩
      "" "" "").1 rfl rfl (by decide)⟩

/-- The concrete recurring broadcast task used to refute C2. -/
def recurringBroadcastTask : Task :=
  { sampleTask with isRecurring := true, recurringTime := some "09:00" }

/-- C2 counterexample: the claim covers *any* task type, but the broadcast
executor has no recurrence block. A recurring broadcast task whose two
groups both succeed reaches terminal status `sent`, yet zero successor
tasks are inserted — not exactly one. -/
theorem recurring_broadcast_no_successor :
    recurringBroadcastTask.isRecurring = true ∧
    recurringBroadcastTask.taskType = "broadcast" ∧
    (processBroadcastTask recurringBroadcastTask
        [GroupStep.sendDone "A" ⟨true, none⟩, GroupStep.sendDone "B" ⟨true, none⟩]
        0).1.status = "sent" ∧
    (processBroadcastTask recurringBroadcastTask
        [GroupStep.sendDone "A" ⟨true, none⟩, GroupStep.sendDone "B" ⟨true, none⟩]
        0).2 = [] := by decide

/-- C2 (amended): only for group-setting tasks (`open_group`/`close_group`,
the executor `_process_group_settings`): after a recurring task with a
well-formed `recurring_time` reaches a terminal status — regardless of the
run's success or failure — exactly one new `pending` task is inserted,
carrying the same configuration and `recurring_time`, with
`parent_schedule_id` equal to the original's when set (else the original's
id), and `scheduled_at` equal to the next calendar day at the same
wall-clock time converted to UTC by subtracting the fixed 2-hour offset. -/
theorem settings_recurrence_regeneration (task : Task)
    (steps : List GroupStep) (now : Int) (todayUtc hh mm : Nat) (s : String)
    (hrec : task.isRecurring = true) (hs : task.recurringTime = some s)
    (hne : s ≠ "") (hp : parseHHMM s = some (hh, mm)) :
    (processGroupSettingsTask task steps now todayUtc).2
      = [nextOccurrence task
          (((todayUtc : Int) + 1) * 1440 + (hh : Int) * 60 + (mm : Int) - 2 * 60)] ∧
    ∀ nt ∈ (processGroupSettingsTask task steps now todayUtc).2,
      nt.status = "pending" ∧
      nt.taskType = task.taskType ∧
      nt.isRecurring = true ∧
      nt.recurringTime = some s ∧
      nt.content = task.content ∧
      nt.groupIds = task.groupIds ∧
      nt.mentionType = task.mentionType ∧
      nt.mentionIds = task.mentionIds ∧
      nt.parentScheduleId = some
        (match task.parentScheduleId with
         | some p => if p = 0 then task.id else p
         | none => task.id) ∧
      nt.scheduledAt
        = ((todayUtc : Int) + 1) * 1440 + (hh : Int) * 60 + (mm : Int) - 2 * 60 := by
  have htruthy : recurringTimeTruthy task = true := by
    simp [recurringTimeTruthy, hs, hne]
  have hcalc : calculateNextRun (task.recurringTime.getD "") todayUtc
      = some (((todayUtc : Int) + 1) * 1440 + (hh : Int) * 60 + (mm : Int) - 2 * 60) := by
    simp [hs, calculateNextRun, hp]
  constructor
  · simp [processGroupSettingsTask, hrec, htruthy, hcalc]
  · intro nt hnt
    simp [processGroupSettingsTask, hrec, htruthy, hcalc] at hnt
    subst hnt
    simp [nextOccurrence, hs]

/-- A concrete recurring close-group task used by the C2 witness. -/
def recurringCloseTask : Task :=
  { sampleTask with
    taskType := "close_group"
    isRecurring := true
    recurringTime := some "09:30" }

/-- Witness for C2 (amended) at a concrete recurring `close_group` task:
the settings executor inserts exactly one successor scheduled for the next
day at 09:30 local = 07:30 UTC. -/
theorem settings_recurrence_regeneration_witness :
    parseHHMM "09:30" = some (9, 30) ∧
    (processGroupSettingsTask recurringCloseTask
        [GroupStep.sendDone "A" ⟨true, none⟩, GroupStep.sendDone "B" ⟨true, none⟩]
        0 100).2
      = [nextOccurrence recurringCloseTask
          (((100 : Int) + 1) * 1440 + (9 : Int) * 60 + (30 : Int) - 2 * 60)] :=
  ⟨by decide,
   (settings_recurrence_regeneration recurringCloseTask
      [GroupStep.sendDone "A" ⟨true, none⟩, GroupStep.sendDone "B" ⟨true, none⟩]
      0 100 9 30 "09:30" rfl rfl (by decide) (by decide)).1⟩

/-- C9: a dispatcher poll selects a task if and only if its status is
`pending` and its `scheduled_at` is at or before the poll instant;
consequently a `cancelled` task is never picked up, and a task left in
`sending` (e.g. by a crash) is never selected again. -/
theorem poll_selects_pending_due (tasks : List Task) (now : Int) (t : Task) :
    (t ∈ processDueTasksSelect tasks now ↔
      t ∈ tasks ∧ t.status = "pending" ∧ t.scheduledAt ≤ now) ∧
    (t.status = "cancelled" → t ∉ processDueTasksSelect tasks now) ∧
    (t.status = "sending" → t ∉ processDueTasksSelect tasks now) := by
  have hiff : t ∈ processDueTasksSelect tasks now ↔
      t ∈ tasks ∧ t.status = "pending" ∧ t.scheduledAt ≤ now := by
    simp [processDueTasksSelect, isDue, List.mem_filter, and_assoc]
  refine ⟨hiff, fun hc hmem => ?_, fun hc hmem => ?_⟩
  · have := (hiff.mp hmem).2.1
    rw [hc] at this
    simp at this
  · have := (hiff.mp hmem).2.1
    rw [hc] at this
    simp at this

/-- Witness for C9 at a concrete pair of tasks: the due pending task is
selected, a cancelled twin is not. -/
theorem poll_selects_pending_due_witness :
    ({ sampleTask with status := "cancelled" } : Task).status = "cancelled" ∧
    ({ sampleTask with status := "cancelled" } : Task)
      ∉ processDueTasksSelect
          [sampleTask, { sampleTask with status := "cancelled" }] 0 :=
  ⟨rfl,
   (poll_selects_pending_due
      [sampleTask, { sampleTask with status := "cancelled" }] 0
      { sampleTask with status := "cancelled" }).2.1 rfl⟩

/-- A concrete welcome-enabled monitored group (threshold 3, counters
clear) used by witnesses and counterexamples. -/
def sampleGroup : MonitoredGroup :=
  { id := 3
    userId := 7
    whatsappGroupId := "123@g.us"
    groupName := "Group A"
    isActive := true
    welcomeEnabled := true
    welcomeThreshold := 3
    welcomeJoinCount := 0
    welcomePendingJoiners := []
    welcomeText := "hi"
    welcomeExtraMentions := []
    welcomePart2Enabled := false
    welcomePart2Text := ""
    welcomePart2Image := "" }

/-- C3 counterexample: on a threshold-3 group, a first join by `"p1"`
leaves `(1, ["p1"])`, but a second join by the same `"p1"` increments the
counter without extending the list — the completed update leaves
`welcome_join_count = 2` against a pending list of length 1, violating the
claimed invariant. -/
theorem welcome_invariant_broken_by_duplicate_join :
    (welcomeStep sampleGroup "p1").1.welcomeJoinCount = 1 ∧
    (welcomeStep sampleGroup "p1").1.welcomePendingJoiners = ["p1"] ∧
    (welcomeStep (welcomeStep sampleGroup "p1").1 "p1").1.welcomeJoinCount = 2 ∧
    (welcomeStep (welcomeStep sampleGroup "p1").1 "p1").1.welcomePendingJoiners.length
      = 1 := by decide

/-- C3 (amended): `welcome_join_count = len(welcome_pending_joiners)` is
preserved by a join of a member *not already pending*, and both fields are
reset to `(0, [])` together whenever a welcome fires; but a join by a
member already in the pending list (below threshold) increments the counter
while leaving the list unchanged, breaking the equality. -/
theorem welcome_invariant_step (g : MonitoredGroup) (p : String) :
    (g.welcomeJoinCount = g.welcomePendingJoiners.length →
      p ∉ g.welcomePendingJoiners →
      (welcomeStep g p).1.welcomeJoinCount
        = (welcomeStep g p).1.welcomePendingJoiners.length) ∧
    ((welcomeStep g p).2.isSome →
      (welcomeStep g p).1.welcomeJoinCount = 0 ∧
      (welcomeStep g p).1.welcomePendingJoiners = []) ∧
    (p ∈ g.welcomePendingJoiners → (welcomeStep g p).2 = none →
      (welcomeStep g p).1.welcomeJoinCount = g.welcomeJoinCount + 1 ∧
      (welcomeStep g p).1.welcomePendingJoiners = g.welcomePendingJoiners) := by
  refine ⟨fun hinv hnot => ?_, fun hfire => ?_, fun hmem hnone => ?_⟩
  · by_cases hthr : thresholdEff g ≤ g.welcomeJoinCount + 1
    · simp [welcomeStep, hnot, hthr]
    · simp [welcomeStep, hnot, hthr]
      simp [hinv]
  · by_cases hthr : thresholdEff g ≤ g.welcomeJoinCount + 1
    · simp [welcomeStep, hthr]
    · simp [welcomeStep, hthr] at hfire
  · by_cases hthr : thresholdEff g ≤ g.welcomeJoinCount + 1
    · simp [welcomeStep, hthr] at hnone
    · simp [welcomeStep, hthr, hmem]

/-- Witness for C3 (amended): a first join by a member not yet pending
keeps the equality on the concrete group. -/
theorem welcome_invariant_step_witness :
    sampleGroup.welcomeJoinCount = sampleGroup.welcomePendingJoiners.length ∧
    (welcomeStep sampleGroup "p1").1.welcomeJoinCount
      = (welcomeStep sampleGroup "p1").1.welcomePendingJoiners.length :=
  ⟨rfl, (welcome_invariant_step sampleGroup "p1").1 rfl (by decide)⟩

/-- Unfolding equation for `processJoins` on a nonempty joiner phone. -/
theorem processJoins_cons (g : MonitoredGroup) (p : String)
    (rest : List String) (hp : p ≠ "") :
    processJoins g (p :: rest)
      = ((processJoins (welcomeStep g p).1 rest).1,
         (match (welcomeStep g p).2 with | some l => [l] | none => [])
           ++ (processJoins (welcomeStep g p).1 rest).2) := by
  simp only [processJoins]
  rw [if_neg hp]

/-- Running a final stretch of distinct, nonempty, not-yet-pending joins
whose count exactly reaches the threshold fires exactly once, capturing the
accumulated pending list, and leaves both fields reset. -/
theorem processJoins_fire_run (rest : List String) :
    ∀ g : MonitoredGroup, rest ≠ [] → rest.Nodup → "" ∉ rest →
      (∀ p ∈ rest, p ∉ g.welcomePendingJoiners) →
      g.welcomeJoinCount = g.welcomePendingJoiners.length →
      g.welcomeJoinCount + rest.length = thresholdEff g →
      processJoins g rest
        = ({ g with welcomeJoinCount := 0, welcomePendingJoiners := [] },
           [g.welcomePendingJoiners ++ rest]) := by
  induction rest with
  | nil => intro g hne; exact absurd rfl hne
  | cons p tail ih =>
    intro g _ hnd hns hdisj hinv hsum
    have hp : p ≠ "" := fun h => hns (by simp [h])
    have hpg : p ∉ g.welcomePendingJoiners := hdisj p (by simp)
    cases tail with
    | nil =>
      have hfire : thresholdEff g ≤ g.welcomeJoinCount + 1 := by
        simp at hsum; omega
      simp [processJoins, hp, welcomeStep, hpg, hfire]
    | cons q tail2 =>
      have hlt : ¬ thresholdEff g ≤ g.welcomeJoinCount + 1 := by
        simp [List.length_cons] at hsum; omega
      have hstep : welcomeStep g p
          = ({ g with welcomeJoinCount := g.welcomeJoinCount + 1
                      welcomePendingJoiners := g.welcomePendingJoiners ++ [p] },
             none) := by
        simp [welcomeStep, hpg, hlt]
      obtain ⟨hpt, hndt⟩ := List.nodup_cons.mp hnd
      have ih' := ih
        ({ g with welcomeJoinCount := g.welcomeJoinCount + 1
                  welcomePendingJoiners := g.welcomePendingJoiners ++ [p] })
        (by simp) hndt (fun h => hns (List.mem_cons_of_mem _ h))
        (by
          intro x hx
          simp only [List.mem_append, List.mem_singleton]
          push_neg
          exact ⟨hdisj x (List.mem_cons_of_mem _ hx),
                 fun he => hpt (he ▸ hx)⟩)
        (by simp [hinv])
        (by
          show g.welcomeJoinCount + 1 + (q :: tail2).length = thresholdEff g
          simp at hsum ⊢
          omega)
      rw [processJoins_cons g p (q :: tail2) hp, hstep]
      simp [ih', List.append_assoc]

/-- C4: for a welcome-enabled group with `welcome_threshold = T`, counters
clear, delivering `T` distinct nonempty joins one at a time fires the
welcome send exactly once, with the captured pending-joiner list equal to
exactly the `T` observed joiners in order; the counter and pending list are
reset to `(0, [])` — and in `welcomeStep` the reset row is produced
*before* the fired capture is handed to the send, so a slow or failing send
leaves the persisted state already clear for the next join. -/
theorem welcome_threshold_fires_once (g : MonitoredGroup)
    (phones : List String) (h0 : g.welcomeJoinCount = 0)
    (hpend : g.welcomePendingJoiners = [])
    (hthr : g.welcomeThreshold = phones.length)
    (hlen : 1 ≤ phones.length) (hnd : phones.Nodup) (hns : "" ∉ phones) :
    processJoins g phones
      = ({ g with welcomeJoinCount := 0, welcomePendingJoiners := [] },
         [phones]) := by
  have hne : phones ≠ [] := by
    intro h; rw [h] at hlen; simp at hlen
  have hdisj : ∀ p ∈ phones, p ∉ g.welcomePendingJoiners := by simp [hpend]
  have hinv : g.welcomeJoinCount = g.welcomePendingJoiners.length := by
    simp [h0, hpend]
  have hn0 : phones.length ≠ 0 := by omega
  have hsum : g.welcomeJoinCount + phones.length = thresholdEff g := by
    simp [thresholdEff, h0, hthr, hn0]
  have hrun := processJoins_fire_run phones g hne hnd hns hdisj hinv hsum
  simpa [hpend] using hrun

/-- The concrete threshold-2 group used by the C4 witness. -/
def welcomeGroupTwo : MonitoredGroup :=
  { sampleGroup with welcomeThreshold := 2 }

/-- Witness for C4: two distinct joins on a threshold-2 group fire exactly
once with exactly those two joiners captured, counters reset. -/
theorem welcome_threshold_fires_once_witness :
    (["p1", "p2"] : List String).Nodup ∧
    processJoins welcomeGroupTwo ["p1", "p2"]
      = ({ welcomeGroupTwo with
            welcomeJoinCount := 0
            welcomePendingJoiners := [] },
         [["p1", "p2"]]) :=
  ⟨by decide,
   welcome_threshold_fires_once welcomeGroupTwo ["p1", "p2"] rfl rfl rfl
     (by decide) (by decide) (by decide)⟩

/-- Appending one event row changes a certificate count by exactly the
inserted row's key match. -/
theorem certCount_snoc (evs : List EventRec) (e : EventRec) (u gid : Nat)
    (p : String) (d : Nat) :
    certCount (evs ++ [e]) u gid p d
      = certCount evs u gid p d
        + (if certKeyMatch e u gid p d then 1 else 0) := by
  simp only [certCount, List.filter_append]
  split <;> simp_all [List.filter_cons]

/-- A zero certificate count is exactly an unsuccessful dedup lookup. -/
theorem certCount_zero_iff (evs : List EventRec) (u gid : Nat) (p : String)
    (d : Nat) :
    certCount evs u gid p d = 0 ↔
      evs.find? (fun e => certKeyMatch e u gid p d) = none := by
  rw [certCount, List.length_eq_zero, List.filter_eq_nil_iff, List.find?_eq_none]

/-- The inserted certificate row matches its own dedup key. -/
theorem mkCertEvent_key (u : Nat) (g : MonitoredGroup) (ev : MemberEventData)
    (d : Nat) (now : Int) :
    certKeyMatch (mkCertEvent u g ev d now) u g.id (ev.memberPhone.getD "") d
      = true := by
  simp [certKeyMatch, mkCertEvent]

/-- Unfolding equation of the certificate handler on a fresh key. -/
theorem handleCertificateEvent_insert (db : Store) (u : Nat)
    (ev : MemberEventData) (d : Nat) (now : Int) (g : MonitoredGroup)
    (hfind : findMonitoredGroup db u ev.groupId = some g)
    (hnone : db.events.find?
        (fun e => certKeyMatch e u g.id (ev.memberPhone.getD "") d) = none) :
    handleCertificateEvent db u ev d now
      = ({ db with events := db.events ++ [mkCertEvent u g ev d now] },
         [Effect.notifyUser "certificate"]) := by
  simp [handleCertificateEvent, hfind, hnone]

/-- The certificate handler never touches the group table. -/
theorem handleCertificateEvent_groups (db : Store) (u : Nat)
    (ev : MemberEventData) (d : Nat) (now : Int) :
    (handleCertificateEvent db u ev d now).1.groups = db.groups := by
  unfold handleCertificateEvent
  rcases hfind : findMonitoredGroup db u ev.groupId with _ | g
  · simp
  · rcases hq : db.events.find?
        (fun e => certKeyMatch e u g.id (ev.memberPhone.getD "") d) with _ | e
    · simp [hq]
    · simp [hq]

/-- C5: certificate dedup per (tenant, group, member, calendar day):
(i) reprocessing the same certificate event on the same day is a complete
no-op (store unchanged, nothing forwarded); (ii) when the group is actively
monitored and no record exists for the key, the first event persists
exactly one record; (iii) the same event on a different day `d2` yields a
second record — one per day; (iv) the handler preserves the at-most-one-
record-per-key invariant for every key. -/
theorem certificate_dedup (db : Store) (u : Nat) (ev : MemberEventData)
    (d d2 : Nat) (now now2 : Int) (g : MonitoredGroup) :
    (handleCertificateEvent (handleCertificateEvent db u ev d now).1 u ev d now2
       = ((handleCertificateEvent db u ev d now).1, [])) ∧
    (findMonitoredGroup db u ev.groupId = some g →
     certCount db.events u g.id (ev.memberPhone.getD "") d = 0 →
     certCount (handleCertificateEvent db u ev d now).1.events u g.id
        (ev.memberPhone.getD "") d = 1) ∧
    (findMonitoredGroup db u ev.groupId = some g →
     certCount db.events u g.id (ev.memberPhone.getD "") d = 0 →
     certCount db.events u g.id (ev.memberPhone.getD "") d2 = 0 →
     d2 ≠ d →
     certCount
        (handleCertificateEvent (handleCertificateEvent db u ev d now).1
          u ev d2 now2).1.events u g.id (ev.memberPhone.getD "") d = 1 ∧
     certCount
        (handleCertificateEvent (handleCertificateEvent db u ev d now).1
          u ev d2 now2).1.events u g.id (ev.memberPhone.getD "") d2 = 1) ∧
    (∀ u2 g2 p2 d3, certCount db.events u2 g2 p2 d3 ≤ 1 →
      certCount (handleCertificateEvent db u ev d now).1.events u2 g2 p2 d3
        ≤ 1) := by
  refine ⟨?_, ?_, ?_, ?_⟩
  · -- (i) same-day reprocessing is a no-op
    rcases hfind : findMonitoredGroup db u ev.groupId with _ | g0
    · simp [handleCertificateEvent, hfind]
    · rcases hq : db.events.find?
          (fun e => certKeyMatch e u g0.id (ev.memberPhone.getD "") d) with _ | e0
      · rw [handleCertificateEvent_insert db u ev d now g0 hfind hq]
        have hfind2 : findMonitoredGroup
            { db with events := db.events ++ [mkCertEvent u g0 ev d now] }
            u ev.groupId = some g0 := hfind
        have hsome : (({ db with
              events := db.events ++ [mkCertEvent u g0 ev d now] } : Store).events.find?
            (fun e => certKeyMatch e u g0.id (ev.memberPhone.getD "") d)).isSome := by
          rw [List.find?_isSome]
          exact ⟨mkCertEvent u g0 ev d now, by simp, mkCertEvent_key u g0 ev d now⟩
        rcases hq2 : (({ db with
              events := db.events ++ [mkCertEvent u g0 ev d now] } : Store).events.find?
            (fun e => certKeyMatch e u g0.id (ev.memberPhone.getD "") d)) with _ | e1
        · rw [hq2] at hsome; simp at hsome
        · simp [handleCertificateEvent, hfind2, hq2]
      · simp [handleCertificateEvent, hfind, hq]
  · -- (ii) first event on a fresh key persists exactly one record
    intro hfind hzero
    have hnone := (certCount_zero_iff db.events u g.id (ev.memberPhone.getD "") d).mp hzero
    rw [handleCertificateEvent_insert db u ev d now g hfind hnone]
    show certCount (db.events ++ [mkCertEvent u g ev d now]) u g.id
      (ev.memberPhone.getD "") d = 1
    rw [certCount_snoc, hzero, mkCertEvent_key]
    simp
  · -- (iii) the following day persists a second record
    intro hfind hzero hzero2 hne
    have hnone := (certCount_zero_iff db.events u g.id (ev.memberPhone.getD "") d).mp hzero
    rw [handleCertificateEvent_insert db u ev d now g hfind hnone]
    have hkey2 : certKeyMatch (mkCertEvent u g ev d now) u g.id
        (ev.memberPhone.getD "") d2 = false := by
      simp [certKeyMatch, mkCertEvent]
      omega
    have hzero2' : certCount (db.events ++ [mkCertEvent u g ev d now])
        u g.id (ev.memberPhone.getD "") d2 = 0 := by
      rw [certCount_snoc, hzero2, hkey2]
      simp
    have hnone2 := (certCount_zero_iff (db.events ++ [mkCertEvent u g ev d now])
        u g.id (ev.memberPhone.getD "") d2).mp hzero2'
    have hfind1 : findMonitoredGroup
        { db with events := db.events ++ [mkCertEvent u g ev d now] }
        u ev.groupId = some g := hfind
    rw [handleCertificateEvent_insert
        { db with events := db.events ++ [mkCertEvent u g ev d now] }
        u ev d2 now2 g hfind1 hnone2]
    have hkeyd : certKeyMatch (mkCertEvent u g ev d2 now2) u g.id
        (ev.memberPhone.getD "") d = false := by
      simp [certKeyMatch, mkCertEvent]
      omega
    constructor
    · show certCount ((db.events ++ [mkCertEvent u g ev d now])
          ++ [mkCertEvent u g ev d2 now2]) u g.id (ev.memberPhone.getD "") d = 1
      rw [certCount_snoc, certCount_snoc, hzero, mkCertEvent_key, hkeyd]
      simp
    · show certCount ((db.events ++ [mkCertEvent u g ev d now])
          ++ [mkCertEvent u g ev d2 now2]) u g.id (ev.memberPhone.getD "") d2 = 1
      rw [certCount_snoc, hzero2', mkCertEvent_key]
      simp
  · -- (iv) the at-most-one invariant is preserved for every key
    intro u2 g2 p2 d3 hle
    rcases hfind : findMonitoredGroup db u ev.groupId with _ | g0
    · simpa [handleCertificateEvent, hfind] using hle
    · rcases hq : db.events.find?
          (fun e => certKeyMatch e u g0.id (ev.memberPhone.getD "") d) with _ | e0
      · rw [handleCertificateEvent_insert db u ev d now g0 hfind hq]
        show certCount (db.events ++ [mkCertEvent u g0 ev d now]) u2 g2 p2 d3 ≤ 1
        rw [certCount_snoc]
        by_cases hkey : certKeyMatch (mkCertEvent u g0 ev d now) u2 g2 p2 d3 = true
        · have hk := hkey
          simp only [certKeyMatch, mkCertEvent, Bool.and_eq_true, beq_iff_eq] at hk
          obtain ⟨⟨⟨⟨h1, h2⟩, h3⟩, _⟩, h5⟩ := hk
          have hzero : certCount db.events u2 g2 p2 d3 = 0 := by
            rw [← h1, ← h2, ← h5]
            have h3' : p2 = ev.memberPhone.getD "" := by
              simpa using h3.symm
            rw [h3']
            exact (certCount_zero_iff db.events u g0.id
              (ev.memberPhone.getD "") d).mpr hq
          rw [hzero, hkey]
          simp
        · rw [if_neg hkey]
          simpa using hle
      · simpa [handleCertificateEvent, hfind, hq] using hle

/-- A concrete certificate event payload for witnesses. -/
def certEvent : MemberEventData :=
  { groupId := "123@g.us"
    groupName := none
    memberId := some "m1"
    memberName := some "Bob"
    memberPhone := some "222"
    timestamp := none }

/-- A concrete store with one active monitored group and empty tables. -/
def certStore : Store :=
  { groups := [sampleGroup]
    messages := []
    events := [] }

/-- Witness for C5 at a concrete store: the first certificate for a fresh
(tenant, group, member, day) key persists exactly one record. -/
theorem certificate_dedup_witness :
    (findMonitoredGroup certStore 7 certEvent.groupId = some sampleGroup ∧
     certCount certStore.events 7 sampleGroup.id
        (certEvent.memberPhone.getD "") 10 = 0) ∧
    certCount (handleCertificateEvent certStore 7 certEvent 10 0).1.events
        7 sampleGroup.id (certEvent.memberPhone.getD "") 10 = 1 :=
  ⟨⟨by decide, by decide⟩,
   (certificate_dedup certStore 7 certEvent 10 11 0 0 sampleGroup).2.1
     (by decide) (by decide)⟩

/-- C6: message ingestion is idempotent on the upstream message id — if a
Message row with the incoming id is already stored, re-processing the event
returns the store unchanged (same rows, same count) and produces no
effects: nothing is forwarded and the mention workflow does not run. -/
theorem message_ingestion_idempotent (db : Store) (u : Nat)
    (msg : MsgEventData) (now : Int)
    (hdup : ∃ m ∈ db.messages, m.id = msg.id) :
    handleNewMessage db u msg now = (db, []) := by
  rcases hfind : findMonitoredGroup db u msg.groupId with _ | g
  · simp [handleNewMessage, hfind]
  · have hsome : (db.messages.find? (fun m => m.id == msg.id)).isSome := by
      rw [List.find?_isSome]
      obtain ⟨m, hm, he⟩ := hdup
      exact ⟨m, hm, by simp [he]⟩
    rcases hq : db.messages.find? (fun m => m.id == msg.id) with _ | m
    · rw [hq] at hsome; simp at hsome
    · simp [handleNewMessage, hfind, hq]

/-- A concrete stored message row for the C6 witness. -/
def storedMessage : MessageRec :=
  { id := "wamid.1"
    userId := 7
    groupId := 3
    whatsappGroupId := "123@g.us"
    groupName := "Group A"
    senderId := some "s1"
    senderName := "Alice"
    senderPhone := "111"
    content := "hello"
    messageType := "text"
    timestamp := 50 }

/-- A store already holding `storedMessage`. -/
def msgStore : Store :=
  { groups := [sampleGroup]
    messages := [storedMessage]
    events := [] }

/-- A re-delivered message event carrying the already-stored id. -/
def dupMsgEvent : MsgEventData :=
  { id := "wamid.1"
    groupId := "123@g.us"
    groupName := none
    senderId := some "s1"
    senderName := some "Alice"
    senderPhone := some "111"
    content := some "hello"
    messageType := some "text"
    timestamp := some 50 }

/-- Witness for C6: re-delivering the stored message id leaves the concrete
store untouched and runs nothing. -/
theorem message_ingestion_idempotent_witness :
    (∃ m ∈ msgStore.messages, m.id = dupMsgEvent.id) ∧
    handleNewMessage msgStore 7 dupMsgEvent 0 = (msgStore, []) :=
  ⟨⟨storedMessage, by decide, rfl⟩,
   message_ingestion_idempotent msgStore 7 dupMsgEvent 0
     ⟨storedMessage, by decide, rfl⟩⟩

/-- C10: an incoming message, member_join, member_leave, or certificate
event whose group has no active monitored row for the owning tenant is
dropped entirely: no Message or Event row is persisted, nothing is
forwarded, and neither the welcome nor the mention workflow runs — the
store is returned unchanged with an empty effect list. -/
theorem unmonitored_events_dropped (db : Store) (u : Nat)
    (msg : MsgEventData) (ev : MemberEventData) (d : Nat) (now : Int)
    (hm : ∀ g ∈ db.groups,
      ¬(g.userId = u ∧ g.whatsappGroupId = msg.groupId ∧ g.isActive = true))
    (he : ∀ g ∈ db.groups,
      ¬(g.userId = u ∧ g.whatsappGroupId = ev.groupId ∧ g.isActive = true)) :
    handleNewMessage db u msg now = (db, []) ∧
    handleMemberEvent db u ev "JOIN" d now = (db, []) ∧
    handleMemberEvent db u ev "LEAVE" d now = (db, []) ∧
    handleCertificateEvent db u ev d now = (db, []) := by
  have hm' : findMonitoredGroup db u msg.groupId = none := by
    rw [findMonitoredGroup, List.find?_eq_none]
    intro g hg
    have := hm g hg
    simp only [Bool.and_eq_true, beq_iff_eq, not_and] at this ⊢
    tauto
  have he' : findMonitoredGroup db u ev.groupId = none := by
    rw [findMonitoredGroup, List.find?_eq_none]
    intro g hg
    have := he g hg
    simp only [Bool.and_eq_true, beq_iff_eq, not_and] at this ⊢
    tauto
  exact ⟨by simp [handleNewMessage, hm'],
         by simp [handleMemberEvent, he'],
         by simp [handleMemberEvent, he'],
         by simp [handleCertificateEvent, he']⟩

/-- A store whose only matching group row is inactive. -/
def inactiveStore : Store :=
  { groups := [{ sampleGroup with isActive := false }]
    messages := []
    events := [] }

/-- Witness for C10: with the group row deactivated, all four event kinds
are dropped with the store unchanged. -/
theorem unmonitored_events_dropped_witness :
    (∀ g ∈ inactiveStore.groups,
      ¬(g.userId = 7 ∧ g.whatsappGroupId = dupMsgEvent.groupId
          ∧ g.isActive = true)) ∧
    handleNewMessage inactiveStore 7 dupMsgEvent 0 = (inactiveStore, []) ∧
    handleCertificateEvent inactiveStore 7 certEvent 10 0
      = (inactiveStore, []) :=
  ⟨by decide,
   (unmonitored_events_dropped inactiveStore 7 dupMsgEvent certEvent 10 0
      (by decide) (by decide)).1,
   (unmonitored_events_dropped inactiveStore 7 dupMsgEvent certEvent 10 0
      (by decide) (by decide)).2.2.2⟩

end WhatsAppCore
